import Mathlib

/-!
Shallow embedding of the superblock and block-device layer of the RVlwext4
repository (src/src/ext4_super.rs, src/src/blockdev.rs).

Machine integers are modelled as `Nat` with explicit reduction modulo
4294967296 (= 2^32), 18446744073709551615+1 (= 2^64), 65536 (= 2^16) or
256 (= 2^8) at the points where the Rust code's types force a reduction:
`as uN` casts truncate, and `+`, `-`, `*`, `<<`, `>>` on `uN` use Rust's
release-mode wrap-around semantics (shift amounts are masked by the bit
width).  Division and remainder are `Nat` division/remainder, total with
divisor 0 (the Rust code panics there; the divisor-nonzero questions are
treated as explicit propositions).
-/

namespace RVlwext4

/-- Little-endian 32-bit field access (`ext4_misc::to_le32`).
Modelled from the spec: §4.2 says the `to_le*` accessors are pure
little-endian field access; on a `u32` value this is the identity, which on
an unconstrained `Nat` model of the field is reduction mod 2^32.
(`ext4_misc` is not under src/.) -/
def to_le32 (x : Nat) : Nat := x % 4294967296

/-- Little-endian 16-bit field access (`ext4_misc::to_le16`).
Modelled from the spec: same as `to_le32` at width 16. -/
def to_le16 (x : Nat) : Nat := x % 65536

/-- Wrap-around `u32` addition. -/
def wadd32 (a b : Nat) : Nat := (a + b) % 4294967296

/-- Wrap-around `u32` subtraction. -/
def wsub32 (a b : Nat) : Nat :=
  (a % 4294967296 + (4294967296 - b % 4294967296)) % 4294967296

/-- Wrap-around `u32` multiplication. -/
def wmul32 (a b : Nat) : Nat := (a * b) % 4294967296

/-- Wrap-around `u64` subtraction. -/
def wsub64 (a b : Nat) : Nat :=
  (a % 18446744073709551616 + (18446744073709551616 - b % 18446744073709551616))
    % 18446744073709551616

/-- `u32` left shift: the shift amount is masked by the bit width and the
result wraps mod 2^32. -/
def shl32 (a s : Nat) : Nat := (a <<< (s % 32)) % 4294967296

/-- `u32` right shift: the shift amount is masked by the bit width. -/
def shr32 (a s : Nat) : Nat := (a % 4294967296) >>> (s % 32)

/-- `u64` left shift. -/
def shl64 (a s : Nat) : Nat := (a <<< (s % 64)) % 18446744073709551616

/-- `u64` right shift. -/
def shr64 (a s : Nat) : Nat := (a % 18446744073709551616) >>> (s % 64)

/-- Rust `u32::div_ceil`: quotient plus one when the remainder is nonzero. -/
def rustDivCeil (a b : Nat) : Nat := a / b + if a % b = 0 then 0 else 1

/-- Superblock magic 0xEF53.  Modelled from the spec: §3 (`ext4_types` is
not under src/). -/
def EXT4_SUPERBLOCK_MAGIC : Nat := 0xEF53

/-- Minimum group-descriptor size.  Modelled from the spec: §3 gives the
descriptor-size range [32, 64]. -/
def EXT4_MIN_BLOCK_GROUP_DESCRIPTOR_SIZE : Nat := 32

/-- Maximum group-descriptor size.  Modelled from the spec: §3 gives the
descriptor-size range [32, 64]. -/
def EXT4_MAX_BLOCK_GROUP_DESCRIPTOR_SIZE : Nat := 64

/-- SPARSE_SUPER read-only-compatible feature bit.  Modelled from the spec:
the value 0x0001 appears in the repository's own tests
(`sb.features_read_only = to_le32(0x0001); // EXT4_FRO_COM_SPARSE_SUPER`). -/
def EXT4_FRO_COM_SPARSE_SUPER : Nat := 0x0001

/-- METADATA_CSUM read-only-compatible feature bit.  Modelled from the
spec: `ext4_types` is not under src/; the standard ext4 value is 0x0400. -/
def EXT4_FRO_COM_METADATA_CSUM : Nat := 0x0400

/-- META_BG incompatible feature bit.  Modelled from the spec: `ext4_types`
is not under src/; the standard ext4 value is 0x0010. -/
def EXT4_FINCOM_META_BG : Nat := 0x0010

/-- CRC32C checksum-type identifier.  Modelled from the spec: `ext4_types`
is not under src/; the standard ext4 value is 1. -/
def EXT4_CHECKSUM_CRC32C : Nat := 1

/-- CRC32C initial value.  Modelled from the spec: `ext4_types` is not
under src/; the standard lwext4 value is 0xFFFFFFFF. -/
def EXT4_CRC32_INIT : Nat := 0xFFFFFFFF

/-- The superblock record (`ext4_types::ext4_sblock`).
Modelled from the spec: the struct itself lives in `ext4_types`, which is
not under src/; §3 lists its fields.  Only the fields read or written by
the code under src/ are modelled.  Field widths: `magic`, `desc_size`,
`inode_size`, `s_reserved_gdt_blocks` are u16; `log_groups_per_flex`,
`checksum_type` are u8; the rest are u32.  Fields are `Nat` and every
access goes through the width-reducing accessors, as in the source. -/
structure ext4_sblock where
  inodes_count : Nat
  blocks_count_lo : Nat
  blocks_count_hi : Nat
  free_blocks_count_lo : Nat
  free_blocks_count_hi : Nat
  blocks_per_group : Nat
  inodes_per_group : Nat
  log_block_size : Nat
  log_cluster_size : Nat
  log_groups_per_flex : Nat
  desc_size : Nat
  inode_size : Nat
  first_inode : Nat
  magic : Nat
  features_compatible : Nat
  features_incompatible : Nat
  features_read_only : Nat
  flags : Nat
  first_meta_bg : Nat
  s_reserved_gdt_blocks : Nat
  checksum_type : Nat
  checksum : Nat
  deriving Repr, DecidableEq

/-- `ext4_sb_get_blocks_cnt`: merge `blocks_count_hi`/`blocks_count_lo`
into the 64-bit total block count.  The u64 shift `(hi as u64) << 32`
cannot overflow, so it is a plain shift. -/
def ext4_sb_get_blocks_cnt (sb : ext4_sblock) : Nat :=
  (to_le32 sb.blocks_count_hi <<< 32) ||| to_le32 sb.blocks_count_lo

/-- `ext4_sb_set_blocks_cnt`: split a 64-bit count into lo/hi halves.
`cnt` is a u64 parameter, hence reduced mod 2^64 by the shift helpers. -/
def ext4_sb_set_blocks_cnt (sb : ext4_sblock) (cnt : Nat) : ext4_sblock :=
  { sb with
    blocks_count_lo := to_le32 (shr64 (shl64 cnt 32) 32)
    blocks_count_hi := to_le32 (shr64 cnt 32) }

/-- `ext4_sb_get_free_blocks_cnt`. -/
def ext4_sb_get_free_blocks_cnt (sb : ext4_sblock) : Nat :=
  (to_le32 sb.free_blocks_count_hi <<< 32) ||| to_le32 sb.free_blocks_count_lo

/-- `ext4_sb_set_free_blocks_cnt`. -/
def ext4_sb_set_free_blocks_cnt (sb : ext4_sblock) (cnt : Nat) : ext4_sblock :=
  { sb with
    free_blocks_count_lo := to_le32 (shr64 (shl64 cnt 32) 32)
    free_blocks_count_hi := to_le32 (shr64 cnt 32) }

/-- `ext4_sb_get_block_size`: `1024 << log_block_size` at type u32. -/
def ext4_sb_get_block_size (sb : ext4_sblock) : Nat :=
  shl32 1024 (to_le32 sb.log_block_size)

/-- `ext4_sb_get_desc_size`: the stored descriptor size, raised to the
minimum 32 when it is smaller. -/
def ext4_sb_get_desc_size (sb : ext4_sblock) : Nat :=
  let des_size := to_le16 sb.desc_size
  if des_size < EXT4_MIN_BLOCK_GROUP_DESCRIPTOR_SIZE then
    EXT4_MIN_BLOCK_GROUP_DESCRIPTOR_SIZE
  else
    des_size

/-- `ext4_sb_check_flag`. -/
def ext4_sb_check_flag (sb : ext4_sblock) (v : Nat) : Bool :=
  to_le32 sb.flags &&& v == v

/-- `ext4_sb_feature_com`. -/
def ext4_sb_feature_com (sb : ext4_sblock) (v : Nat) : Bool :=
  to_le32 sb.features_compatible &&& v == v

/-- `ext4_sb_feature_incom`. -/
def ext4_sb_feature_incom (sb : ext4_sblock) (v : Nat) : Bool :=
  to_le32 sb.features_incompatible &&& v == v

/-- `ext4_sb_feature_ro_com`. -/
def ext4_sb_feature_ro_com (sb : ext4_sblock) (v : Nat) : Bool :=
  to_le32 sb.features_read_only &&& v == v

/-- `ext4_sb_first_meta_bg`. -/
def ext4_sb_first_meta_bg (sb : ext4_sblock) : Nat :=
  to_le32 sb.first_meta_bg

/-- `ext4_block_group_cnt`: number of block groups; the u64 quotient is
truncated to u32 by the `as u32` cast. -/
def ext4_block_group_cnt (sb : ext4_sblock) : Nat :=
  let block_count := ext4_sb_get_blocks_cnt sb
  let block_per_group := to_le32 sb.blocks_per_group
  if block_count % block_per_group ≠ 0 then
    (block_count / block_per_group + 1) % 4294967296
  else
    (block_count / block_per_group) % 4294967296

/-- `ext4_blocks_in_group_cnt`: blocks in group `bgid`; the last group may
be partial. -/
def ext4_blocks_in_group_cnt (sb : ext4_sblock) (bgid : Nat) : Nat :=
  let block_group_count := ext4_block_group_cnt sb
  let block_per_group := to_le32 sb.blocks_per_group
  let total_blocks := ext4_sb_get_blocks_cnt sb
  if bgid < wsub32 block_group_count 1 then
    block_per_group
  else
    wsub64 total_blocks (wmul32 (wsub32 block_group_count 1) block_per_group)
      % 4294967296

/-- `ext4_inodes_in_group_cnt`: inodes in group `bgid`; the last group may
be partial. -/
def ext4_inodes_in_group_cnt (sb : ext4_sblock) (bgid : Nat) : Nat :=
  let block_group_count := ext4_block_group_cnt sb
  let inodes_per_group := to_le32 sb.inodes_per_group
  let total_inode := to_le32 sb.inodes_count
  if bgid < wsub32 block_group_count 1 then
    inodes_per_group
  else
    wsub32 total_inode (wmul32 (wsub32 block_group_count 1) inodes_per_group)

/-- Loop body of `is_power_of`, with an explicit iteration bound.  The
source's `loop` strictly decreases `a` on every pass whenever `b ≥ 2`
(every call site uses `b ∈ {3, 5, 7}`), so `fuel = a` iterations always
suffice; the bound only makes the recursion structural. -/
def is_power_of_loop : Nat → Nat → Nat → Bool
  | 0, _, _ => false
  | fuel + 1, a, b =>
    if a < b then false
    else if a = b then true
    else if a % b ≠ 0 then false
    else is_power_of_loop fuel (a / b) b

/-- `is_power_of(aa, bb)`: whether `aa` is a positive power of `bb`. -/
def is_power_of (aa bb : Nat) : Bool :=
  is_power_of_loop aa aa bb

/-- `ext4_sb_sparse`: whether block group `group` hosts a sparse superblock
backup. -/
def ext4_sb_sparse (group : Nat) : Bool :=
  if group ≤ 1 then true
  else if group &&& 1 = 0 then false
  else is_power_of group 3 || is_power_of group 5 || is_power_of group 7

/-- `ext4_sb_is_super_in_bg`: whether group `group` contains a superblock
copy, honouring the SPARSE_SUPER feature. -/
def ext4_sb_is_super_in_bg (sb : ext4_sblock) (group : Nat) : Bool :=
  if ext4_sb_feature_ro_com sb EXT4_FRO_COM_SPARSE_SUPER
      && !ext4_sb_sparse group then
    false
  else
    true

/-- `ext4_bg_num_gdb_meta`: GDT blocks of `group` under META_BG. -/
def ext4_bg_num_gdb_meta (sb : ext4_sblock) (group : Nat) : Nat :=
  let dsc_per_group := ext4_sb_get_block_size sb / ext4_sb_get_desc_size sb
  let metagroup := group / dsc_per_group
  let first := wmul32 metagroup dsc_per_group
  let last := wsub32 (wadd32 first dsc_per_group) 1
  if group = first || group = wadd32 first 1 || group = last then 1
  else 0

/-- `ext4_bg_num_gdb_nometa`: GDT blocks of `group` in the traditional
layout. -/
def ext4_bg_num_gdb_nometa (sb : ext4_sblock) (group : Nat) : Nat :=
  if !ext4_sb_is_super_in_bg sb group then 0
  else
    let dsc_per_block := ext4_sb_get_block_size sb / ext4_sb_get_desc_size sb
    let total_groups := ext4_block_group_cnt sb
    let db_count := rustDivCeil total_groups dsc_per_block
    if ext4_sb_feature_incom sb EXT4_FINCOM_META_BG then
      ext4_sb_first_meta_bg sb
    else
      db_count

/-- `ext4_bg_num_gdb`: GDT blocks of `group`, selecting the META_BG or the
traditional algorithm. -/
def ext4_bg_num_gdb (sb : ext4_sblock) (group : Nat) : Nat :=
  let dsc_per_block := ext4_sb_get_block_size sb / ext4_sb_get_desc_size sb
  let first_meta_bg := ext4_sb_first_meta_bg sb
  let metagroup := group / dsc_per_block
  if !ext4_sb_feature_incom sb EXT4_FINCOM_META_BG ∨ metagroup < first_meta_bg
  then ext4_bg_num_gdb_nometa sb group
  else ext4_bg_num_gdb_meta sb group

/-- The `num` local of `ext4_num_base_meta_clusters`: superblock copy plus
GDT blocks plus (in the traditional layout) the reserved GDT blocks. -/
def base_meta_blocks (sb : ext4_sblock) (block_group : Nat) : Nat :=
  let dsc_per_block := ext4_sb_get_block_size sb / ext4_sb_get_desc_size sb
  let num := if ext4_sb_is_super_in_bg sb block_group then 1 else 0
  if !ext4_sb_feature_incom sb EXT4_FINCOM_META_BG
      ∨ block_group < wmul32 (ext4_sb_first_meta_bg sb) dsc_per_block then
    if num > 0 then
      wadd32 (wadd32 num (ext4_bg_num_gdb sb block_group))
        (to_le16 sb.s_reserved_gdt_blocks)
    else num
  else
    wadd32 num (ext4_bg_num_gdb sb block_group)

/-- The `cluster_ratio` local of `ext4_num_base_meta_clusters`:
`(1024 << log_cluster_size) / block_size` at type u32. -/
def cluster_ratio (sb : ext4_sblock) : Nat :=
  shl32 1024 (to_le32 sb.log_cluster_size) / ext4_sb_get_block_size sb

/-- `ext4_num_base_meta_clusters`: the base-metadata count of
`block_group`, shifted right by `log_cluster_size` after adding
`cluster_ratio - 1`. -/
def ext4_num_base_meta_clusters (sb : ext4_sblock) (block_group : Nat) : Nat :=
  shr32 (wsub32 (wadd32 (base_meta_blocks sb block_group) (cluster_ratio sb)) 1)
    (to_le32 sb.log_cluster_size)

/-- One bit step of CRC32C (Castagnoli, reflected polynomial 0x82F63B78).
Modelled from the spec: §4.2 fixes CRC32C with the Castagnoli polynomial;
`ext4_crc32` is not under src/. -/
def crc32c_bit (c : Nat) : Nat :=
  if c % 2 = 1 then (c / 2) ^^^ 0x82F63B78 else c / 2

/-- One byte step of CRC32C: xor the byte into the low bits, then eight
bit steps. -/
def crc32c_byte (c b : Nat) : Nat :=
  crc32c_bit^[8] (c ^^^ b % 256)

/-- `ext4_crc32c(crc, buf)`: CRC32C folded over a byte list.
Modelled from the spec: §4.2 (`ext4_crc32` is not under src/). -/
def ext4_crc32c (crc : Nat) (buf : List Nat) : Nat :=
  buf.foldl crc32c_byte (to_le32 crc)

/-- Little-endian byte serialization of a `w`-byte field. -/
def leBytes (w x : Nat) : List Nat :=
  (List.range w).map fun i => x / 256 ^ i % 256

/-- `ext4_crc32::struct_bytes_before_filed` applied at the offset of
`checksum`.  Modelled from the spec: §4.2 says checksums cover "all bytes
before the `checksum` field"; the on-disk field layout lives in
`ext4_types`, which is not under src/, so this serializes the modelled
fields little-endian in a fixed order ending just before `checksum`. -/
def struct_bytes_before_filed (sb : ext4_sblock) : List Nat :=
  leBytes 4 (to_le32 sb.inodes_count) ++
  leBytes 4 (to_le32 sb.blocks_count_lo) ++
  leBytes 4 (to_le32 sb.free_blocks_count_lo) ++
  leBytes 4 (to_le32 sb.log_block_size) ++
  leBytes 4 (to_le32 sb.log_cluster_size) ++
  leBytes 4 (to_le32 sb.blocks_per_group) ++
  leBytes 4 (to_le32 sb.inodes_per_group) ++
  leBytes 2 (to_le16 sb.magic) ++
  leBytes 4 (to_le32 sb.first_inode) ++
  leBytes 2 (to_le16 sb.inode_size) ++
  leBytes 4 (to_le32 sb.features_compatible) ++
  leBytes 4 (to_le32 sb.features_incompatible) ++
  leBytes 4 (to_le32 sb.features_read_only) ++
  leBytes 4 (to_le32 sb.blocks_count_hi) ++
  leBytes 4 (to_le32 sb.free_blocks_count_hi) ++
  leBytes 2 (to_le16 sb.desc_size) ++
  leBytes 2 (to_le16 sb.s_reserved_gdt_blocks) ++
  leBytes 4 (to_le32 sb.first_meta_bg) ++
  leBytes 4 (to_le32 sb.flags) ++
  leBytes 1 (sb.log_groups_per_flex % 256) ++
  leBytes 1 (sb.checksum_type % 256)

/-- `ext4_sb_csum`: CRC32C of the superblock bytes preceding `checksum`.
The crate feature `CONFIG_META_CSUM_ENABLE` is taken as enabled (the
build configuration is not under src/; with it disabled the function
returns 0). -/
def ext4_sb_csum (sb : ext4_sblock) : Nat :=
  ext4_crc32c EXT4_CRC32_INIT (struct_bytes_before_filed sb)

/-- `ext4_sb_verify_csum`: trivially true without METADATA_CSUM; otherwise
the checksum type must be CRC32C and the stored checksum must match. -/
def ext4_sb_verify_csum (sb : ext4_sblock) : Bool :=
  if !ext4_sb_feature_ro_com sb EXT4_FRO_COM_METADATA_CSUM then true
  else if to_le32 (sb.checksum_type % 256) ≠ EXT4_CHECKSUM_CRC32C then false
  else to_le32 sb.checksum == ext4_sb_csum sb

/-- `ext4_sb_check`: superblock validity check. -/
def ext4_sb_check (sb : ext4_sblock) : Bool :=
  if to_le16 sb.magic ≠ EXT4_SUPERBLOCK_MAGIC then false
  else if to_le32 sb.inodes_count = 0 then false
  else if ext4_sb_get_blocks_cnt sb = 0 then false
  else if to_le32 sb.blocks_per_group = 0 then false
  else if to_le32 sb.inodes_per_group = 0 then false
  else if to_le16 sb.inode_size < 128 then false
  else if to_le32 sb.first_inode < 11 then false
  else if ext4_sb_get_desc_size sb < EXT4_MIN_BLOCK_GROUP_DESCRIPTOR_SIZE then
    false
  else if ext4_sb_get_desc_size sb > EXT4_MAX_BLOCK_GROUP_DESCRIPTOR_SIZE then
    false
  else if !ext4_sb_verify_csum sb then false
  else true

/-- Error taxonomy of the block-device layer (`blockdev::BlockDevError`). -/
inductive BlockDevError where
  | ReadError
  | WriteError
  | BlockOutOfRange (block_id : Nat) (max_blocks : Nat)
  | InvalidBlockSize (size : Nat) (expected : Nat)
  | BufferTooSmall (provided : Nat) (required : Nat)
  | DeviceNotOpen
  | DeviceClosed
  | IoError
  | AlignmentError (offset : Nat) (alignment : Nat)
  | DeviceBusy
  | Timeout
  | Unsupported
  | ReadOnly
  | NoSpace
  | PermissionDenied
  | Corrupted
  | ChecksumError
  | Unknown
  deriving Repr, DecidableEq

/-- Result type of block-device operations (`BlockDevResult<T>`). -/
abbrev BlockDevResult (T : Type) := Except BlockDevError T

/-- The `BlockDevice` trait, restricted to the methods the verified
operations use.  `σ` is the backend's state; `&mut self` methods return
the updated state. -/
structure BlockDevice (σ : Type) where
  write : σ → List Nat → Nat → Nat → σ × BlockDevResult Unit
  block_size : σ → Nat
  is_readonly : σ → Bool

/-- The `BlockDev` wrapper: backend state plus the one-block cache. -/
structure BlockDev (σ : Type) where
  dev : σ
  buffer : List Nat
  is_dirty : Bool
  cached_block : Option Nat

/-- `BlockDev::write_block`: refuse read-only backends, otherwise write the
internal buffer as block `block_id` and mark the cache clean. -/
def BlockDev.write_block {σ : Type} (ops : BlockDevice σ) (s : BlockDev σ)
    (block_id : Nat) : BlockDev σ × BlockDevResult Unit :=
  if ops.is_readonly s.dev then
    (s, .error .ReadOnly)
  else
    match ops.write s.dev s.buffer block_id 1 with
    | (d, .error e) => ({ s with dev := d }, .error e)
    | (d, .ok _) =>
      ({ s with dev := d, cached_block := some block_id, is_dirty := false },
        .ok ())

/-- `BlockDev::write_blocks`: refuse read-only backends, then check the
buffer length, then write `count` blocks from the caller's buffer. -/
def BlockDev.write_blocks {σ : Type} (ops : BlockDevice σ) (s : BlockDev σ)
    (buffer : List Nat) (block_id count : Nat) :
    BlockDev σ × BlockDevResult Unit :=
  if ops.is_readonly s.dev then
    (s, .error .ReadOnly)
  else
    let block_size := ops.block_size s.dev
    let required_size := block_size * count
    if buffer.length < required_size then
      (s, .error (.BufferTooSmall buffer.length required_size))
    else
      match ops.write s.dev buffer block_id count with
      | (d, r) => ({ s with dev := d }, r)

/-- The all-zero superblock (`core::mem::zeroed`), used as the base of the
concrete test records. -/
def sbZero : ext4_sblock :=
  { inodes_count := 0, blocks_count_lo := 0, blocks_count_hi := 0
    free_blocks_count_lo := 0, free_blocks_count_hi := 0
    blocks_per_group := 0, inodes_per_group := 0
    log_block_size := 0, log_cluster_size := 0, log_groups_per_flex := 0
    desc_size := 0, inode_size := 0, first_inode := 0, magic := 0
    features_compatible := 0, features_incompatible := 0
    features_read_only := 0, flags := 0, first_meta_bg := 0
    s_reserved_gdt_blocks := 0, checksum_type := 0, checksum := 0 }

/-- The repository's `create_test_superblock` record. -/
def testSb : ext4_sblock :=
  { sbZero with
    magic := 0xEF53
    blocks_count_lo := 1000000
    free_blocks_count_lo := 500000
    blocks_per_group := 8192
    inodes_per_group := 2048
    inodes_count := 250000
    log_block_size := 2
    log_cluster_size := 2
    desc_size := 64
    inode_size := 256
    first_inode := 11 }

/-- A superblock that passes every check of `ext4_sb_check` while storing
`desc_size = 16 < 32`. -/
def sbDescLow : ext4_sblock := { testSb with desc_size := 16 }

/-- A superblock storing `desc_size = 100 > 64`. -/
def sbDescHigh : ext4_sblock := { testSb with desc_size := 100 }

/-- A superblock whose true group count is 2^32, so that the `as u32`
truncation in `ext4_block_group_cnt` is visible. -/
def sbBig : ext4_sblock :=
  { testSb with
    blocks_count_lo := 0, blocks_count_hi := 1
    blocks_per_group := 1, inodes_per_group := 1 }

/-- A superblock whose block count 2^32 + 5 exceeds 32 bits with
`blocks_per_group = 1`, so the group count and the last-group block count
are truncated. -/
def sbTrunc : ext4_sblock :=
  { testSb with
    blocks_count_lo := 5, blocks_count_hi := 1
    blocks_per_group := 1, inodes_per_group := 1, inodes_count := 5 }

/-- A superblock that passes `ext4_sb_check` with `log_block_size = 22`, so
`1024 << 22` wraps to 0 at type u32. -/
def sbShift : ext4_sblock := { testSb with log_block_size := 22 }

/-- The test superblock at block size 1024 (`log_block_size = 0`,
`log_cluster_size = 0`, cluster ratio 1). -/
def sbC3 : ext4_sblock := { testSb with log_block_size := 0, log_cluster_size := 0 }

/-- The test superblock with the SPARSE_SUPER read-only feature set. -/
def sbSparse : ext4_sblock := { testSb with features_read_only := 1 }

/-- The test superblock with 8192·100 + 1 blocks. -/
def sbGroups101 : ext4_sblock := { testSb with blocks_count_lo := 819201 }

/-- The test superblock with 8192·100 blocks. -/
def sbGroups100 : ext4_sblock := { testSb with blocks_count_lo := 819200 }

/-! Helper lemmas shared by several claim theorems. -/

/-- The clamped descriptor size is at least 32. -/
lemma desc_size_ge_32 (sb : ext4_sblock) : 32 ≤ ext4_sb_get_desc_size sb := by
  simp only [ext4_sb_get_desc_size, EXT4_MIN_BLOCK_GROUP_DESCRIPTOR_SIZE]
  split <;> omega

/-- The clamped descriptor size is the max of 32 and the stored field. -/
lemma desc_size_eq_max (sb : ext4_sblock) :
    ext4_sb_get_desc_size sb = max 32 (to_le16 sb.desc_size) := by
  simp only [ext4_sb_get_desc_size, EXT4_MIN_BLOCK_GROUP_DESCRIPTOR_SIZE]
  split <;> omega

/-- The stored descriptor size never exceeds the clamped one. -/
lemma desc_size_le_clamped (sb : ext4_sblock) :
    to_le16 sb.desc_size ≤ ext4_sb_get_desc_size sb := by
  rw [desc_size_eq_max]; omega

set_option maxHeartbeats 1000000 in
/-- Characterization of `ext4_sb_check`.  The lower descriptor-size test of
the source is omitted on the right because the clamped size is always at
least the minimum. -/
lemma ext4_sb_check_eq_true_iff (sb : ext4_sblock) :
    ext4_sb_check sb = true ↔
      (to_le16 sb.magic = EXT4_SUPERBLOCK_MAGIC ∧
       to_le32 sb.inodes_count ≠ 0 ∧
       ext4_sb_get_blocks_cnt sb ≠ 0 ∧
       to_le32 sb.blocks_per_group ≠ 0 ∧
       to_le32 sb.inodes_per_group ≠ 0 ∧
       128 ≤ to_le16 sb.inode_size ∧
       11 ≤ to_le32 sb.first_inode ∧
       ext4_sb_get_desc_size sb ≤ 64 ∧
       ext4_sb_verify_csum sb = true) := by
  have h32 := desc_size_ge_32 sb
  simp only [ext4_sb_check, EXT4_MIN_BLOCK_GROUP_DESCRIPTOR_SIZE,
    EXT4_MAX_BLOCK_GROUP_DESCRIPTOR_SIZE]
  split_ifs <;> simp_all
  all_goals omega

/-- Joining a 32-bit high half and a low value below 2^32 by `or` is plain
positional addition. -/
lemma lor_shift32 (a b : Nat) (hb : b < 4294967296) :
    (a <<< 32) ||| b = a * 4294967296 + b := by
  have hb2 : b < 2 ^ 32 := by omega
  calc (a <<< 32) ||| b
      = (2 ^ 32 * a) ||| b := by rw [Nat.shiftLeft_eq, Nat.mul_comm]
    _ = 2 ^ 32 * a + b := (Nat.mul_add_lt_is_or hb2 a).symm
    _ = a * 4294967296 + b := by rw [Nat.mul_comm]

/-- The merged 64-bit block count is below 2^64. -/
lemma get_blocks_cnt_lt (sb : ext4_sblock) :
    ext4_sb_get_blocks_cnt sb < 18446744073709551616 := by
  unfold ext4_sb_get_blocks_cnt
  have h1 : to_le32 sb.blocks_count_hi < 4294967296 := by
    unfold to_le32; omega
  have h2 : to_le32 sb.blocks_count_lo < 4294967296 := by
    unfold to_le32; omega
  rw [lor_shift32 _ _ h2]
  omega

/-- With a nonzero group size, the group count is the ceiling quotient
truncated to 32 bits. -/
lemma block_group_cnt_eq (sb : ext4_sblock)
    (h : to_le32 sb.blocks_per_group ≠ 0) :
    ext4_block_group_cnt sb =
      ((ext4_sb_get_blocks_cnt sb + to_le32 sb.blocks_per_group - 1) /
        to_le32 sb.blocks_per_group) % 4294967296 := by
  unfold ext4_block_group_cnt
  set bc := ext4_sb_get_blocks_cnt sb with hbc
  set g := to_le32 sb.blocks_per_group with hg
  have hg0 : 0 < g := Nat.pos_of_ne_zero h
  have hdm := Nat.div_add_mod bc g
  have hlt : bc % g < g := Nat.mod_lt _ hg0
  by_cases hr : bc % g = 0
  · have h1 : bc + g - 1 = g * (bc / g) + (g - 1) := by omega
    have h2 : (bc + g - 1) / g = bc / g := by
      rw [h1, Nat.mul_add_div hg0]
      have h3 : (g - 1) / g = 0 := Nat.div_eq_of_lt (by omega)
      omega
    rw [if_neg (by omega), h2]
  · have hmul : g * (bc / g + 1) = g * (bc / g) + g := by ring
    have h1 : bc + g - 1 = g * (bc / g + 1) + (bc % g - 1) := by omega
    have h2 : (bc + g - 1) / g = bc / g + 1 := by
      rw [h1, Nat.mul_add_div hg0]
      have h3 : (bc % g - 1) / g = 0 := Nat.div_eq_of_lt (by omega)
      omega
    rw [if_pos hr, h2]

/-! Claim C2. -/

/-- C2 counterexample: with stored `desc_size = 100` the getter returns
100, which is not in [32, 64]; the claimed upper clamp to 64 does not
exist. -/
theorem ext4_sb_get_desc_size_no_upper_clamp :
    ext4_sb_get_desc_size sbDescHigh = 100 ∧
    ¬ ext4_sb_get_desc_size sbDescHigh ≤ 64 := by decide

/-- C2 (amended): `ext4_sb_get_desc_size` returns
`max 32 desc_size` — a stored value below 32 yields 32, but values above
64 are returned unchanged (no upper clamp). -/
theorem ext4_sb_get_desc_size_lower_clamp (sb : ext4_sblock) :
    32 ≤ ext4_sb_get_desc_size sb ∧
    ext4_sb_get_desc_size sb = max 32 (to_le16 sb.desc_size) :=
  ⟨desc_size_ge_32 sb, desc_size_eq_max sb⟩

/-! Claim C9. -/

/-- C9: on a read-only backend, `write_block` and `write_blocks` return
`Err(ReadOnly)` and leave the wrapper state — device state, buffer, dirty
flag and cached block number — unchanged.  The theorem holds for every
`BlockDevice` instance, in particular for every `write` implementation, so
the result cannot depend on (and therefore does not invoke) the backend's
`write`. -/
theorem write_readonly_rejected {σ : Type} (ops : BlockDevice σ)
    (s : BlockDev σ) (buffer : List Nat) (block_id count bid2 : Nat)
    (h : ops.is_readonly s.dev = true) :
    BlockDev.write_block ops s block_id = (s, .error .ReadOnly) ∧
    BlockDev.write_blocks ops s buffer bid2 count = (s, .error .ReadOnly) := by
  constructor <;> simp [BlockDev.write_block, BlockDev.write_blocks, h]

/-- A concrete read-only backend over `Nat` state whose `write` would
change the state if it were called. -/
def roDevice : BlockDevice Nat :=
  { write := fun d _ _ _ => (d + 1, .ok ())
    block_size := fun _ => 512
    is_readonly := fun _ => true }

/-- A concrete wrapper state over `roDevice`. -/
def roState : BlockDev Nat :=
  { dev := 0, buffer := [7, 7], is_dirty := false, cached_block := none }

/-- C9 witness: the theorem applied to the concrete read-only device. -/
theorem write_readonly_rejected_witness :
    BlockDev.write_block roDevice roState 3 = (roState, .error .ReadOnly) ∧
    BlockDev.write_blocks roDevice roState [1, 2] 4 1
      = (roState, .error .ReadOnly) :=
  write_readonly_rejected roDevice roState [1, 2] 3 1 4 rfl

/-! Claim C1. -/

/-- C1 counterexample: a superblock whose stored `desc_size` is 16 — below
32 — still passes `ext4_sb_check`, because the check reads the clamped
descriptor size.  The claim says any stored `desc_size` outside [32, 64]
is rejected. -/
theorem ext4_sb_check_accepts_small_desc_size :
    ext4_sb_check sbDescLow = true ∧ to_le16 sbDescLow.desc_size < 32 := by
  decide

/-- C1 (amended): `ext4_sb_check` returns false whenever the magic is not
0xEF53, `inodes_count` is zero, the 64-bit block count is zero,
`blocks_per_group` or `inodes_per_group` is zero, `inode_size < 128`,
`first_inode < 11`, the stored `desc_size` exceeds 64, or the checksum
verification fails.  A stored `desc_size` below 32 is not rejected: the
check sees the getter's value, which is clamped up to 32. -/
theorem ext4_sb_check_rejects_invalid (sb : ext4_sblock)
    (h : to_le16 sb.magic ≠ EXT4_SUPERBLOCK_MAGIC ∨
         to_le32 sb.inodes_count = 0 ∨
         ext4_sb_get_blocks_cnt sb = 0 ∨
         to_le32 sb.blocks_per_group = 0 ∨
         to_le32 sb.inodes_per_group = 0 ∨
         to_le16 sb.inode_size < 128 ∨
         to_le32 sb.first_inode < 11 ∨
         64 < to_le16 sb.desc_size ∨
         ext4_sb_verify_csum sb = false) :
    ext4_sb_check sb = false := by
  cases hc : ext4_sb_check sb with
  | false => rfl
  | true =>
    exfalso
    obtain ⟨hm, hi, hb, hbg, hig, his, hfi, hds, hcs⟩ :=
      (ext4_sb_check_eq_true_iff sb).1 hc
    have hdm := desc_size_le_clamped sb
    rcases h with h | h | h | h | h | h | h | h | h
    · exact h hm
    · exact hi h
    · exact hb h
    · exact hbg h
    · exact hig h
    · omega
    · omega
    · omega
    · rw [hcs] at h; cases h

/-- C1 witness: the all-zero superblock (bad magic) is rejected. -/
theorem ext4_sb_check_rejects_invalid_witness :
    ext4_sb_check sbZero = false :=
  ext4_sb_check_rejects_invalid sbZero (Or.inl (by decide))

/-! Claim C10. -/

/-- C10 counterexample: `sbShift` passes `ext4_sb_check` (its
`log_block_size` is not validated), yet `1024 << 22` wraps to 0 at u32, so
the descriptors-per-block quotient is 0 and `ext4_bg_num_gdb` divides by
zero on it. -/
theorem ext4_sb_check_block_size_overflow :
    ext4_sb_check sbShift = true ∧
    ext4_sb_get_block_size sbShift / ext4_sb_get_desc_size sbShift = 0 := by
  decide

/-- A nonzero computed block size is at least 1024: the u32 value of
`1024 << k` with `k < 32` is either 0 (shift overflow) or the full power
of two. -/
lemma block_size_ge_1024 (sb : ext4_sblock)
    (h : ext4_sb_get_block_size sb ≠ 0) :
    1024 ≤ ext4_sb_get_block_size sb := by
  unfold ext4_sb_get_block_size shl32 at *
  set k := to_le32 sb.log_block_size % 32 with hk
  have hklt : k < 32 := Nat.mod_lt _ (by norm_num)
  have hpow : (1024 : Nat) <<< k = 2 ^ (10 + k) := by
    rw [Nat.shiftLeft_eq, pow_add]; norm_num
  rw [hpow] at h ⊢
  by_cases h32 : 10 + k < 32
  · have hlt : 2 ^ (10 + k) < 4294967296 := by
      calc 2 ^ (10 + k) < 2 ^ 32 := Nat.pow_lt_pow_right (by norm_num) h32
        _ = 4294967296 := by norm_num
    rw [Nat.mod_eq_of_lt hlt]
    calc (1024 : Nat) = 2 ^ 10 := by norm_num
      _ ≤ 2 ^ (10 + k) := Nat.pow_le_pow_right (by norm_num) (by omega)
  · exfalso
    apply h
    have hsplit : 10 + k = 32 + (10 + k - 32) := by omega
    rw [hsplit, pow_add]
    have h232 : (2 : Nat) ^ 32 = 4294967296 := by norm_num
    rw [h232]
    exact Nat.mul_mod_right _ _

/-- C10 (amended): for a superblock accepted by `ext4_sb_check` whose
computed block size did not overflow to 0, all divisors used by
`ext4_block_group_cnt`, `ext4_blocks_in_group_cnt`,
`ext4_inodes_in_group_cnt`, `ext4_bg_num_gdb` and its meta/nometa variants
are nonzero: `blocks_per_group`, `inodes_per_group`, the clamped
descriptor size, and the descriptors-per-block quotient.  The extra
hypothesis is needed because `ext4_sb_check` does not bound
`log_block_size`, and `1024 << log_block_size` can wrap to 0 at u32 (see
the counterexample). -/
theorem ext4_sb_check_divisors_nonzero (sb : ext4_sblock)
    (hc : ext4_sb_check sb = true)
    (hbs : ext4_sb_get_block_size sb ≠ 0) :
    to_le32 sb.blocks_per_group ≠ 0 ∧
    to_le32 sb.inodes_per_group ≠ 0 ∧
    0 < ext4_sb_get_desc_size sb ∧
    0 < ext4_sb_get_block_size sb / ext4_sb_get_desc_size sb := by
  obtain ⟨hm, hi, hb, hbg, hig, his, hfi, hds, hcs⟩ :=
    (ext4_sb_check_eq_true_iff sb).1 hc
  have h32 := desc_size_ge_32 sb
  have h1024 := block_size_ge_1024 sb hbs
  exact ⟨hbg, hig, by omega, Nat.div_pos (by omega) (by omega)⟩

/-- C10 witness: the divisors are positive on the repository's test
superblock. -/
theorem ext4_sb_check_divisors_nonzero_witness :
    0 < ext4_sb_get_block_size testSb / ext4_sb_get_desc_size testSb :=
  (ext4_sb_check_divisors_nonzero testSb (by decide) (by decide)).2.2.2

/-! Claim C6. -/

/-- C6 counterexample: with `blocks_per_group = 1` and 2^32 blocks, the
true ceiling quotient is 2^32 but the function truncates it to 0 through
the `as u32` cast. -/
theorem ext4_block_group_cnt_truncates :
    ext4_block_group_cnt sbBig = 0 ∧
    (ext4_sb_get_blocks_cnt sbBig + to_le32 sbBig.blocks_per_group - 1) /
        to_le32 sbBig.blocks_per_group = 4294967296 := by
  decide

/-- C6 (amended): with nonzero `blocks_per_group`, `ext4_block_group_cnt`
is the ceiling of blocks_count / blocks_per_group reduced mod 2^32 (the
`as u32` truncation); it equals the plain ceiling whenever that ceiling
fits in 32 bits, as in the 8192·100(+1) instances of the claim. -/
theorem ext4_block_group_cnt_ceil (sb : ext4_sblock)
    (h : to_le32 sb.blocks_per_group ≠ 0) :
    ext4_block_group_cnt sb =
      ((ext4_sb_get_blocks_cnt sb + to_le32 sb.blocks_per_group - 1) /
        to_le32 sb.blocks_per_group) % 4294967296 :=
  block_group_cnt_eq sb h

/-- C6 witness: the claim's concrete instances — 101 groups for
8192·100 + 1 blocks, 100 groups for 8192·100 blocks. -/
theorem ext4_block_group_cnt_ceil_witness :
    ext4_block_group_cnt sbGroups101 = 101 ∧
    ext4_block_group_cnt sbGroups100 = 100 := by
  have h1 := ext4_block_group_cnt_ceil sbGroups101 (by decide)
  have h2 := ext4_block_group_cnt_ceil sbGroups100 (by decide)
  rw [h1, h2]
  decide

/-! Claim C5. -/

/-- C5: setting the 64-bit total (or free) block count and reading it back
returns the value unchanged, for every value below 2^64. -/
theorem ext4_sb_blocks_cnt_roundtrip (sb : ext4_sblock) (v : Nat)
    (hv : v < 18446744073709551616) :
    ext4_sb_get_blocks_cnt (ext4_sb_set_blocks_cnt sb v) = v ∧
    ext4_sb_get_free_blocks_cnt (ext4_sb_set_free_blocks_cnt sb v) = v := by
  have hlo : to_le32 (shr64 (shl64 v 32) 32) = v % 4294967296 := by
    unfold to_le32 shr64 shl64
    rw [Nat.shiftLeft_eq, Nat.shiftRight_eq_div_pow]
    norm_num
    omega
  have hhi : to_le32 (shr64 v 32) = v / 4294967296 := by
    unfold to_le32 shr64
    rw [Nat.shiftRight_eq_div_pow]
    norm_num
    omega
  have main : ∀ lo hi : Nat, lo = v % 4294967296 → hi = v / 4294967296 →
      ((to_le32 hi <<< 32) ||| to_le32 lo) = v := by
    intro lo hi hl hh
    subst hl hh
    have h1 : to_le32 (v / 4294967296) = v / 4294967296 := by
      unfold to_le32; omega
    have h2 : to_le32 (v % 4294967296) = v % 4294967296 := by
      unfold to_le32; omega
    rw [h1, h2, lor_shift32 _ _ (by omega)]
    omega
  constructor
  · exact main _ _ hlo hhi
  · exact main _ _ hlo hhi

/-- C5 witness: round-trip at the concrete value 2^32 + 12345. -/
theorem ext4_sb_blocks_cnt_roundtrip_witness :
    ext4_sb_get_blocks_cnt (ext4_sb_set_blocks_cnt testSb 4294979641)
      = 4294979641 ∧
    ext4_sb_get_free_blocks_cnt (ext4_sb_set_free_blocks_cnt testSb 4294979641)
      = 4294979641 :=
  ext4_sb_blocks_cnt_roundtrip testSb 4294979641 (by norm_num)

/-! Claim C4. -/

/-- For a base `b ≥ 2` and `a` within the iteration bound, the source loop
decides "`a` is a positive power of `b`". -/
lemma is_power_of_loop_iff {b : Nat} (hb : 2 ≤ b) :
    ∀ fuel a, a ≤ fuel →
      (is_power_of_loop fuel a b = true ↔ ∃ k, 1 ≤ k ∧ a = b ^ k) := by
  intro fuel
  induction fuel with
  | zero =>
    intro a ha
    have ha0 : a = 0 := by omega
    subst ha0
    show false = true ↔ _
    refine iff_of_false (by simp) ?_
    rintro ⟨k, hk, h0⟩
    have hpos : 0 < b ^ k := Nat.pos_pow_of_pos k (by omega)
    omega
  | succ n ih =>
    intro a ha
    show (if a < b then false
      else if a = b then true
      else if a % b ≠ 0 then false
      else is_power_of_loop n (a / b) b) = true ↔ _
    by_cases h1 : a < b
    · rw [if_pos h1]
      refine iff_of_false (by simp) ?_
      rintro ⟨k, hk, hak⟩
      have hble : b ≤ b ^ k := Nat.le_self_pow (by omega) b
      omega
    · rw [if_neg h1]
      by_cases h2 : a = b
      · rw [if_pos h2]
        exact iff_of_true rfl ⟨1, le_refl 1, by rw [h2, pow_one]⟩
      · rw [if_neg h2]
        by_cases h3 : a % b = 0
        · rw [if_neg (by omega : ¬ a % b ≠ 0)]
          have hgt : b < a := by omega
          have hdvd : b ∣ a := Nat.dvd_of_mod_eq_zero h3
          have hdiv_lt : a / b < a := Nat.div_lt_self (by omega) (by omega)
          rw [ih (a / b) (by omega)]
          constructor
          · rintro ⟨k, hk, hak⟩
            refine ⟨k + 1, by omega, ?_⟩
            calc a = b * (a / b) := (Nat.mul_div_cancel' hdvd).symm
              _ = b * b ^ k := by rw [hak]
              _ = b ^ (k + 1) := (pow_succ' b k).symm
          · rintro ⟨k, hk, hak⟩
            have hble : b ^ 1 ≤ b ^ k := Nat.pow_le_pow_right (by omega) hk
            have hk2 : 2 ≤ k := by
              by_contra hlt
              have hk1 : k = 1 := by omega
              rw [hk1, pow_one] at hak
              omega
            refine ⟨k - 1, by omega, ?_⟩
            have hsplit : b ^ k = b * b ^ (k - 1) := by
              conv in b ^ k => rw [show k = (k - 1) + 1 by omega]
              exact pow_succ' b (k - 1)
            rw [hak, hsplit, Nat.mul_div_cancel_left _ (by omega : 0 < b)]
        · rw [if_pos (by omega : a % b ≠ 0)]
          refine iff_of_false (by simp) ?_
          rintro ⟨k, hk, hak⟩
          apply h3
          rw [hak]
          exact Nat.mod_eq_zero_of_dvd (dvd_pow_self b (by omega))

/-- `is_power_of a b` decides `a ∈ {b, b², b³, …}` for `b ≥ 2`. -/
lemma is_power_of_iff {a b : Nat} (hb : 2 ≤ b) :
    is_power_of a b = true ↔ ∃ k, 1 ≤ k ∧ a = b ^ k :=
  is_power_of_loop_iff hb a a (le_refl a)

/-- C4: `ext4_sb_sparse g` holds exactly for g ∈ {0, 1} and for odd pure
powers (exponent ≥ 1) of 3, 5 or 7; consequently `ext4_sb_is_super_in_bg`
agrees with `ext4_sb_sparse` whenever the SPARSE_SUPER read-only feature
is set and is constantly true otherwise. -/
theorem ext4_sb_sparse_characterization (g : Nat) :
    (ext4_sb_sparse g = true ↔
      g ≤ 1 ∨ (g % 2 = 1 ∧ ∃ k, 1 ≤ k ∧ (g = 3 ^ k ∨ g = 5 ^ k ∨ g = 7 ^ k))) ∧
    ∀ sb : ext4_sblock,
      (ext4_sb_feature_ro_com sb EXT4_FRO_COM_SPARSE_SUPER = true →
        ext4_sb_is_super_in_bg sb g = ext4_sb_sparse g) ∧
      (ext4_sb_feature_ro_com sb EXT4_FRO_COM_SPARSE_SUPER = false →
        ext4_sb_is_super_in_bg sb g = true) := by
  constructor
  · unfold ext4_sb_sparse
    by_cases hg : g ≤ 1
    · rw [if_pos hg]
      exact iff_of_true rfl (Or.inl hg)
    · rw [if_neg hg]
      have hand : g &&& 1 = g % 2 := Nat.and_one_is_mod g
      by_cases hpar : g % 2 = 0
      · rw [if_pos (by rw [hand]; exact hpar)]
        refine iff_of_false (by simp) ?_
        rintro (h | ⟨h1, _⟩)
        · exact hg h
        · omega
      · rw [if_neg (by rw [hand]; exact hpar)]
        constructor
        · intro h
          refine Or.inr ⟨by omega, ?_⟩
          simp only [Bool.or_eq_true] at h
          rcases h with (h3 | h5) | h7
          · obtain ⟨k, hk, hak⟩ := (is_power_of_iff (by norm_num)).1 h3
            exact ⟨k, hk, Or.inl hak⟩
          · obtain ⟨k, hk, hak⟩ := (is_power_of_iff (by norm_num)).1 h5
            exact ⟨k, hk, Or.inr (Or.inl hak)⟩
          · obtain ⟨k, hk, hak⟩ := (is_power_of_iff (by norm_num)).1 h7
            exact ⟨k, hk, Or.inr (Or.inr hak)⟩
        · rintro (h | ⟨-, k, hk, hcase⟩)
          · exact absurd h hg
          · simp only [Bool.or_eq_true]
            rcases hcase with h | h | h
            · exact Or.inl (Or.inl
                ((is_power_of_iff (by norm_num)).2 ⟨k, hk, h⟩))
            · exact Or.inl (Or.inr
                ((is_power_of_iff (by norm_num)).2 ⟨k, hk, h⟩))
            · exact Or.inr ((is_power_of_iff (by norm_num)).2 ⟨k, hk, h⟩)
  · intro sb
    constructor
    · intro h
      unfold ext4_sb_is_super_in_bg
      rw [h]
      cases hsp : ext4_sb_sparse g <;> simp [hsp]
    · intro h
      unfold ext4_sb_is_super_in_bg
      rw [h]
      simp

/-- C4 witness: the characterization applied at g = 9 = 3², and the
super-in-bg reductions at g = 10 on concrete superblocks with and without
the SPARSE_SUPER feature. -/
theorem ext4_sb_sparse_characterization_witness :
    ext4_sb_sparse 9 = true ∧
    ext4_sb_is_super_in_bg sbSparse 10 = ext4_sb_sparse 10 ∧
    ext4_sb_is_super_in_bg testSb 10 = true := by
  refine ⟨?_, ?_, ?_⟩
  · exact (ext4_sb_sparse_characterization 9).1.2
      (Or.inr ⟨by norm_num, 2, by norm_num, Or.inl (by norm_num)⟩)
  · exact ((ext4_sb_sparse_characterization 10).2 sbSparse).1 (by decide)
  · exact ((ext4_sb_sparse_characterization 10).2 testSb).2 (by decide)

/-! Claim C8. -/

/-- C8: `ext4_sb_verify_csum` is true whenever METADATA_CSUM is not set;
with the feature set it is true exactly when the checksum type is the
CRC32C identifier and the stored checksum equals the CRC32C (initialised
with `EXT4_CRC32_INIT`) of the superblock bytes preceding the `checksum`
field. -/
theorem ext4_sb_verify_csum_spec (sb : ext4_sblock) :
    (ext4_sb_feature_ro_com sb EXT4_FRO_COM_METADATA_CSUM = false →
      ext4_sb_verify_csum sb = true) ∧
    (ext4_sb_feature_ro_com sb EXT4_FRO_COM_METADATA_CSUM = true →
      (ext4_sb_verify_csum sb = true ↔
        (to_le32 (sb.checksum_type % 256) = EXT4_CHECKSUM_CRC32C ∧
         to_le32 sb.checksum =
           ext4_crc32c EXT4_CRC32_INIT (struct_bytes_before_filed sb)))) := by
  constructor
  · intro h
    simp [ext4_sb_verify_csum, h]
  · intro h
    by_cases hc : to_le32 (sb.checksum_type % 256) = EXT4_CHECKSUM_CRC32C
    · simp [ext4_sb_verify_csum, ext4_sb_csum, h, hc]
    · simp [ext4_sb_verify_csum, ext4_sb_csum, h, hc]

/-- C8 witness: the test superblock has METADATA_CSUM clear, so its
checksum verifies trivially. -/
theorem ext4_sb_verify_csum_spec_witness :
    ext4_sb_verify_csum testSb = true :=
  (ext4_sb_verify_csum_spec testSb).1 (by decide)

/-! Claim C3. -/

/-- C3 counterexample: on the repository's own test superblock (block size
4096, cluster ratio 1) the base-metadata block count of group 0 is 3, so
the claimed ceiling division by the cluster ratio yields 3, but the
function shifts by `log_cluster_size = 2` and returns 0. -/
theorem ext4_num_base_meta_clusters_not_ceil :
    ext4_num_base_meta_clusters testSb 0 = 0 ∧
    (base_meta_blocks testSb 0 + cluster_ratio testSb - 1) /
        cluster_ratio testSb = 3 := by
  decide

/-- C3 (amended): `ext4_num_base_meta_clusters` computes
`(num + cluster_ratio - 1) >> log_cluster_size`, which equals the
base-metadata block count divided by the cluster ratio rounded up exactly
when the block size is 1024 (`log_block_size = 0`, so the ratio is
`2^log_cluster_size`); the bounds keep the u32 shift and subtraction from
wrapping. -/
theorem ext4_num_base_meta_clusters_ceilDiv (sb : ext4_sblock) (bg : Nat)
    (hlbs : to_le32 sb.log_block_size = 0)
    (hlcs : to_le32 sb.log_cluster_size ≤ 21)
    (hnw : base_meta_blocks sb bg + cluster_ratio sb ≤ 4294967296) :
    0 < cluster_ratio sb ∧
    ext4_num_base_meta_clusters sb bg =
      (base_meta_blocks sb bg + cluster_ratio sb - 1) / cluster_ratio sb := by
  have hbs : ext4_sb_get_block_size sb = 1024 := by
    unfold ext4_sb_get_block_size
    rw [hlbs]
    decide
  set k := to_le32 sb.log_cluster_size with hk
  have hk32 : k % 32 = k := Nat.mod_eq_of_lt (by omega)
  have hclsize : shl32 1024 k = 2 ^ (10 + k) := by
    unfold shl32
    have hmul : (1024 : Nat) * 2 ^ k = 2 ^ (10 + k) := by
      rw [pow_add]; norm_num
    have hlt : (2 : Nat) ^ (10 + k) < 4294967296 := by
      calc (2 : Nat) ^ (10 + k) ≤ 2 ^ 31 :=
            Nat.pow_le_pow_right (by norm_num) (by omega)
        _ < 4294967296 := by norm_num
    rw [hk32, Nat.shiftLeft_eq, hmul, Nat.mod_eq_of_lt hlt]
  have hr : cluster_ratio sb = 2 ^ k := by
    unfold cluster_ratio
    rw [← hk, hclsize, hbs]
    have hsplit : (2 : Nat) ^ (10 + k) = 1024 * 2 ^ k := by
      rw [pow_add]; norm_num
    rw [hsplit, Nat.mul_div_cancel_left _ (by norm_num : 0 < 1024)]
  have hrpos : 0 < cluster_ratio sb := by
    rw [hr]; exact Nat.pos_pow_of_pos k (by norm_num)
  refine ⟨hrpos, ?_⟩
  unfold ext4_num_base_meta_clusters shr32 wadd32 wsub32
  rw [← hk, hk32, Nat.shiftRight_eq_div_pow]
  rw [hr] at hnw hrpos ⊢
  have hgoal : ∀ r n : Nat, 0 < r → n + r ≤ 4294967296 →
      ((n + r) % 4294967296 % 4294967296 + (4294967296 - 1 % 4294967296)) %
          4294967296 % 4294967296 / r = (n + r - 1) / r := by
    intro r n hr0 hle
    have hnum : ((n + r) % 4294967296 % 4294967296 +
        (4294967296 - 1 % 4294967296)) % 4294967296 % 4294967296
        = n + r - 1 := by omega
    rw [hnum]
  exact hgoal _ _ hrpos hnw

/-- C3 witness: the amended statement at block size 1024 and cluster
ratio 1 on the concrete superblock `sbC3` (group 0 has 9 base-metadata
blocks). -/
theorem ext4_num_base_meta_clusters_ceilDiv_witness :
    ext4_num_base_meta_clusters sbC3 0 =
      (base_meta_blocks sbC3 0 + cluster_ratio sbC3 - 1) / cluster_ratio sbC3 ∧
    0 < cluster_ratio sbC3 := by
  have h := ext4_num_base_meta_clusters_ceilDiv sbC3 0 (by decide) (by decide)
    (by decide)
  exact ⟨h.2, h.1⟩

/-! Claim C7. -/

/-- C7 counterexample: with 2^32 + 5 blocks and one block per group, the
group count truncates to 5, and the last-group block count wraps to 1
through the `as u32` cast, while the claimed formula
`blocks_count − (group_count − 1) · blocks_per_group` gives 2^32 + 1. -/
theorem ext4_blocks_in_group_cnt_truncates :
    ext4_blocks_in_group_cnt sbTrunc 4 ≠
      ext4_sb_get_blocks_cnt sbTrunc -
        (ext4_block_group_cnt sbTrunc - 1) * to_le32 sbTrunc.blocks_per_group := by
  decide

/-- Ceiling-quotient arithmetic for the last group: from
`gc = ⌈bc / bpg⌉` with `bc ≥ 1` follows `gc ≥ 1`,
`(gc − 1)·bpg ≤ bc − 1`, and `bc − (gc − 1)·bpg ≤ bpg`. -/
lemma last_group_arith (bc bpg gc : Nat) (hbpg : bpg ≠ 0) (hbc : bc ≠ 0)
    (hgceq : gc = (bc + bpg - 1) / bpg) :
    1 ≤ gc ∧ (gc - 1) * bpg ≤ bc - 1 ∧ bc - (gc - 1) * bpg ≤ bpg := by
  have hshift : bc + bpg - 1 = (bc - 1) + bpg := by omega
  rw [hshift, Nat.add_div_right _ (by omega)] at hgceq
  have hq : (bc - 1) / bpg * bpg ≤ bc - 1 := Nat.div_mul_le_self _ _
  have hdm := Nat.div_add_mod (bc - 1) bpg
  have hmlt : (bc - 1) % bpg < bpg := Nat.mod_lt _ (by omega)
  have hcomm : (bc - 1) / bpg * bpg = bpg * ((bc - 1) / bpg) :=
    Nat.mul_comm _ _
  have hgc1 : (gc - 1) * bpg = (bc - 1) / bpg * bpg := by
    rw [hgceq, Nat.add_sub_cancel]
  refine ⟨by rw [hgceq]; exact Nat.le_add_left 1 _, by rw [hgc1]; exact hq, ?_⟩
  rw [hgc1, hcomm]
  omega

/-- C7 (amended): with nonzero `blocks_per_group` and `inodes_per_group`,
a nonzero block count whose group-count ceiling fits in 32 bits (so the
`as u32` cast does not truncate — see the counterexample), and inodes
sufficient for the full groups, every group before the last holds
`blocks_per_group` blocks and `inodes_per_group` inodes, and the last
group holds the remainders
`blocks_count − (group_count − 1)·blocks_per_group` and
`inodes_count − (group_count − 1)·inodes_per_group`. -/
theorem ext4_groups_last_partial (sb : ext4_sblock)
    (hbpg : to_le32 sb.blocks_per_group ≠ 0)
    (hipg : to_le32 sb.inodes_per_group ≠ 0)
    (hbc : ext4_sb_get_blocks_cnt sb ≠ 0)
    (hfit : (ext4_sb_get_blocks_cnt sb + to_le32 sb.blocks_per_group - 1) /
        to_le32 sb.blocks_per_group < 4294967296)
    (hinode : (ext4_block_group_cnt sb - 1) * to_le32 sb.inodes_per_group ≤
        to_le32 sb.inodes_count) :
    (∀ g, g < ext4_block_group_cnt sb - 1 →
      ext4_blocks_in_group_cnt sb g = to_le32 sb.blocks_per_group ∧
      ext4_inodes_in_group_cnt sb g = to_le32 sb.inodes_per_group) ∧
    ext4_blocks_in_group_cnt sb (ext4_block_group_cnt sb - 1) =
      ext4_sb_get_blocks_cnt sb -
        (ext4_block_group_cnt sb - 1) * to_le32 sb.blocks_per_group ∧
    ext4_inodes_in_group_cnt sb (ext4_block_group_cnt sb - 1) =
      to_le32 sb.inodes_count -
        (ext4_block_group_cnt sb - 1) * to_le32 sb.inodes_per_group := by
  have hbpg_lt : to_le32 sb.blocks_per_group < 4294967296 := by
    unfold to_le32; omega
  have hipg_lt : to_le32 sb.inodes_per_group < 4294967296 := by
    unfold to_le32; omega
  have hti_lt : to_le32 sb.inodes_count < 4294967296 := by
    unfold to_le32; omega
  have hbc64 := get_blocks_cnt_lt sb
  have hgceq : ext4_block_group_cnt sb =
      (ext4_sb_get_blocks_cnt sb + to_le32 sb.blocks_per_group - 1) /
        to_le32 sb.blocks_per_group := by
    rw [block_group_cnt_eq sb hbpg]
    exact Nat.mod_eq_of_lt hfit
  obtain ⟨hgc1, hd_le, hrem⟩ := last_group_arith _ _ _ hbpg hbc hgceq
  have hgclt : ext4_block_group_cnt sb < 4294967296 := by
    rw [hgceq]; exact hfit
  have hwsub_gc : wsub32 (ext4_block_group_cnt sb) 1 =
      ext4_block_group_cnt sb - 1 := by
    unfold wsub32; omega
  refine ⟨?_, ?_, ?_⟩
  · intro g hg
    constructor
    · simp only [ext4_blocks_in_group_cnt]
      rw [hwsub_gc, if_pos hg]
    · simp only [ext4_inodes_in_group_cnt]
      rw [hwsub_gc, if_pos hg]
  · simp only [ext4_blocks_in_group_cnt]
    rw [hwsub_gc, if_neg (lt_irrefl _)]
    unfold wsub64 wmul32
    omega
  · simp only [ext4_inodes_in_group_cnt]
    rw [hwsub_gc, if_neg (lt_irrefl _)]
    unfold wsub32 wmul32
    omega

/-- C7 witness: the repository test superblock has 123 groups; group 50 is
full, the last group holds 576 blocks and 144 inodes. -/
theorem ext4_groups_last_partial_witness :
    ext4_blocks_in_group_cnt testSb 50 = 8192 ∧
    ext4_blocks_in_group_cnt testSb 122 = 576 ∧
    ext4_inodes_in_group_cnt testSb 122 = 144 := by
  obtain ⟨hpre, hblast, hilast⟩ := ext4_groups_last_partial testSb
    (by decide) (by decide) (by decide) (by decide) (by decide)
  have hgc : ext4_block_group_cnt testSb = 123 := by decide
  rw [hgc] at hblast hilast
  norm_num at hblast hilast
  refine ⟨?_, ?_, ?_⟩
  · have h := (hpre 50 (by rw [hgc]; norm_num)).1
    rw [h]
    decide
  · rw [hblast]
    decide
  · rw [hilast]
    decide

end RVlwext4

